import Mathlib

/-!
Verification of `src/script2.py` (Yandex map URL generator).

The script loads a list of geographic points from JSON (a file path, a literal
JSON string, or stdin), validates them, and formats a Yandex-maps URL.  This
file gives a shallow embedding of the script: JSON values are an inductive
type, JSON numbers are exact rationals (every JSON numeral denotes a finite
decimal; the scientific-notation rendering Python uses for magnitudes outside
[1e-4, 1e16) is outside the range exercised here and is not modelled), Python
exceptions become explicit error values, the filesystem is an explicit
association list, and the generator object's mutable state is threaded
explicitly.
-/

namespace Script2

/-- The opening brace character, used by the JSON parser. -/
def lbrace : Char := '\x7b'

/-- The closing brace character, used by the JSON parser. -/
def rbrace : Char := '\x7d'

/-- Parsed JSON values, as produced by Python's json.loads.  Python maps JSON
numbers to int/float; both are represented here by an exact rational, which is
faithful for every value the script's coercions and formatting can observe. -/
inductive JValue where
  | jnull : JValue
  | jbool (b : Bool) : JValue
  | jnum (q : ℚ) : JValue
  | jstr (s : String) : JValue
  | jarr (xs : List JValue) : JValue
  | jobj (fields : List (String × JValue)) : JValue

/-- Errors the script can raise.  The Python script distinguishes raise sites,
not exception classes: notList and missingField are the two explicit
ValueError raises in parse_points, coercion is a failure of int()/float(),
typeError is a containment/indexing operation on a non-mapping element,
parseError is json.JSONDecodeError, and noPoints is the ValueError raised by
generate_map_url on an empty collection. -/
inductive Err where
  | notList : Err
  | missingField : Err
  | coercion : Err
  | typeError : Err
  | parseError : Err
  | noPoints : Err

/-- Whitespace accepted between JSON tokens. -/
def isWs (c : Char) : Bool := [' ', '\t', '\n', '\r'].contains c

/-- Drop leading JSON whitespace. -/
def skipWs : List Char → List Char
  | [] => []
  | c :: cs => if isWs c then skipWs cs else c :: cs

/-- Decimal digit test, by code point. -/
def isDigitCh (c : Char) : Bool := decide (48 ≤ c.toNat ∧ c.toNat ≤ 57)

/-- Numeric value of a decimal digit character. -/
def digitVal (c : Char) : Nat := c.toNat - 48

/-- Split a character list into its leading run of digits and the rest. -/
def readDigits : List Char → List Char × List Char
  | [] => ([], [])
  | c :: cs =>
    if isDigitCh c then
      let r := readDigits cs
      (c :: r.1, r.2)
    else ([], c :: cs)

/-- Value of a digit string read in base 10. -/
def digitsToNat (ds : List Char) : Nat := ds.foldl (fun a c => a * 10 + digitVal c) 0

/-- The rational denoted by a decimal numeral: sign, integer digits, fraction
digits and a decimal exponent. -/
def jsonNumVal (neg : Bool) (ip fp : List Char) (ex : Int) : ℚ :=
  let m : Int := (digitsToNat (ip ++ fp) : Int)
  let m : Int := if neg then -m else m
  if 0 ≤ ex then mkRat (m * (10 : Int) ^ ex.toNat) ((10 : Nat) ^ fp.length)
  else mkRat m ((10 : Nat) ^ (fp.length + (-ex).toNat))

/-- Parse the signed digit string after an exponent marker. -/
def parseExpPart (cs : List Char) : Option (Int × List Char) :=
  let sgn : Int × List Char :=
    match cs with
    | '+' :: r => (1, r)
    | '-' :: r => (-1, r)
    | r => (1, r)
  match readDigits sgn.2 with
  | ([], _) => none
  | (ds, rest) => some (sgn.1 * (digitsToNat ds : Int), rest)

/-- Parse an optional exponent part; absent exponent means 0. -/
def parseExpOpt : List Char → Option (Int × List Char)
  | [] => some (0, [])
  | c :: r => if c == 'e' || c == 'E' then parseExpPart r else some (0, c :: r)

/-- Parse a JSON number (JSON requires a nonempty integer part and, when a
decimal point is present, a nonempty fraction part). -/
def parseJsonNumber (cs : List Char) : Option (ℚ × List Char) :=
  let sgn : Bool × List Char :=
    match cs with
    | '-' :: r => (true, r)
    | r => (false, r)
  match readDigits sgn.2 with
  | ([], _) => none
  | (ip, r1) =>
    let frac : Option (List Char × List Char) :=
      match r1 with
      | '.' :: r =>
        match readDigits r with
        | ([], _) => none
        | (ds, rest) => some (ds, rest)
      | r => some (([] : List Char), r)
    match frac with
    | none => none
    | some (fp, r2) =>
      match parseExpOpt r2 with
      | none => none
      | some (ex, r3) => some (jsonNumVal sgn.1 ip fp ex, r3)

/-- The JSON two-character escapes, each source letter beside the character it
denotes. -/
def escPairs : List (Char × Char) :=
  [('"', '"'), ('\\', '\\'), ('/', '/'), ('n', '\n'), ('t', '\t'), ('r', '\r'),
    ('b', '\x08'), ('f', '\x0c')]

/-- Translate a JSON string escape character (the \uXXXX form is handled
separately; surrogate-pair recombination is not modelled). -/
def escMap (c : Char) : Option Char :=
  (escPairs.find? fun pc => pc.1 == c).map fun pc => pc.2

/-- Value of a hexadecimal digit character: letters a-f in either case sit at
1-6 modulo 32, nine below their value. -/
def hexVal (c : Char) : Option Nat :=
  let n := c.toNat
  if isDigitCh c then some (n - 48)
  else if decide ((97 ≤ n ∧ n ≤ 102) ∨ (65 ≤ n ∧ n ≤ 70)) then some (n % 32 + 9)
  else none

/-- The code point of a four-digit hexadecimal escape body. -/
def hex4Val (cs : List Char) : Option Nat :=
  cs.foldl
    (fun acc c =>
      match acc, hexVal c with
      | some a, some v => some (a * 16 + v)
      | _, _ => none)
    (some 0)

/-- Parse the body of a JSON string literal, after the opening quote. -/
def parseStrChars : List Char → Option (List Char × List Char)
  | [] => none
  | c :: cs =>
    if c == '"' then some ([], cs)
    else if c == '\\' then
      match cs with
      | [] => none
      | 'u' :: h1 :: h2 :: h3 :: h4 :: rest =>
        match hex4Val [h1, h2, h3, h4], parseStrChars rest with
        | some code, some (s, r) => some (Char.ofNat code :: s, r)
        | _, _ => none
      | e :: rest =>
        match escMap e with
        | some ec =>
          match parseStrChars rest with
          | some (s, r) => some (ec :: s, r)
          | none => none
        | none => none
    else
      match parseStrChars cs with
      | some (s, r) => some (c :: s, r)
      | none => none

mutual

/-- Parse one JSON value.  The fuel argument only bounds recursion depth; it is
chosen large enough in jsonParse that it never runs out on inputs the parser
accepts. -/
def parseValue : Nat → List Char → Option (JValue × List Char)
  | 0, _ => none
  | fuel + 1, cs =>
    match skipWs cs with
    | [] => none
    | c :: cs1 =>
      if c == '"' then
        match parseStrChars cs1 with
        | some (s, r) => some (JValue.jstr (String.mk s), r)
        | none => none
      else if c == lbrace then
        match skipWs cs1 with
        | [] => none
        | c2 :: cs2 => if c2 == rbrace then some (JValue.jobj [], cs2) else parseObjItems fuel (c2 :: cs2)
      else if c == '[' then
        match skipWs cs1 with
        | [] => none
        | c2 :: cs2 => if c2 == ']' then some (JValue.jarr [], cs2) else parseArrItems fuel (c2 :: cs2)
      else if c == 't' then
        match cs1 with
        | 'r' :: 'u' :: 'e' :: r => some (JValue.jbool true, r)
        | _ => none
      else if c == 'f' then
        match cs1 with
        | 'a' :: 'l' :: 's' :: 'e' :: r => some (JValue.jbool false, r)
        | _ => none
      else if c == 'n' then
        match cs1 with
        | 'u' :: 'l' :: 'l' :: r => some (JValue.jnull, r)
        | _ => none
      else
        match parseJsonNumber (c :: cs1) with
        | some (q, r) => some (JValue.jnum q, r)
        | none => none

/-- Parse the comma-separated items of a nonempty JSON array, up to and
including the closing bracket. -/
def parseArrItems : Nat → List Char → Option (JValue × List Char)
  | 0, _ => none
  | fuel + 1, cs =>
    match parseValue fuel cs with
    | none => none
    | some (v, r1) =>
      match skipWs r1 with
      | ',' :: r2 =>
        match parseArrItems fuel r2 with
        | some (JValue.jarr xs, r3) => some (JValue.jarr (v :: xs), r3)
        | _ => none
      | ']' :: r2 => some (JValue.jarr [v], r2)
      | _ => none

/-- Parse the comma-separated members of a nonempty JSON object, up to and
including the closing brace. -/
def parseObjItems : Nat → List Char → Option (JValue × List Char)
  | 0, _ => none
  | fuel + 1, cs =>
    match skipWs cs with
    | '"' :: cs1 =>
      match parseStrChars cs1 with
      | none => none
      | some (k, r1) =>
        match skipWs r1 with
        | ':' :: r2 =>
          match parseValue fuel r2 with
          | none => none
          | some (v, r3) =>
            match skipWs r3 with
            | ',' :: r4 =>
              match parseObjItems fuel r4 with
              | some (JValue.jobj fl, r5) => some (JValue.jobj ((String.mk k, v) :: fl), r5)
              | _ => none
            | c :: r4 => if c == rbrace then some (JValue.jobj [(String.mk k, v)], r4) else none
            | [] => none
        | _ => none
    | _ => none

end

/-- Models Python's json.loads: parse a complete JSON document, requiring the
whole input to be consumed.  (json.loads also accepts NaN/Infinity literals
and rejects unescaped control characters; neither corner is reachable in the
properties below.) -/
def jsonParse (s : String) : Option JValue :=
  match parseValue (s.length + 2) s.toList with
  | some (v, rest) => if (skipWs rest).isEmpty then some v else none
  | none => none

/-! ## Python coercion semantics

The loader applies Python's int() and float() to field values and uses the
in-operator for the key check.  These are modelled below on JValue.  Unmodelled
Python corners, none of which is reachable in the properties proved here:
non-ASCII Unicode decimal digits in numeric strings, underscore digit
separators for float() (int() models them), the inf / infinity / nan
spellings for float(), and int() on objects defining special conversion
methods. -/

/-- dict lookup with Python semantics: a duplicated key keeps the last value. -/
def dictGet (fl : List (String × JValue)) (k : String) : Option JValue :=
  fl.foldl (fun acc kv => if kv.1 == k then some kv.2 else acc) none

/-- Models the Python expression key in v: key membership on a dict, substring
test on a string, element equality on a list, TypeError otherwise. -/
def pyContains (v : JValue) (key : String) : Except Err Bool :=
  match v with
  | .jobj fl => .ok (dictGet fl key).isSome
  | .jstr s => .ok (key.isEmpty || (s.splitOn key).length != 1)
  | .jarr xs =>
    .ok (xs.any fun x =>
      match x with
      | .jstr t => t == key
      | _ => false)
  | _ => .error Err.typeError

/-- Models v[key]: only a dict supports string subscription; the loader only
subscripts after the key check, so the missing-key case cannot fire there. -/
def pyIndex (v : JValue) (key : String) : Except Err JValue :=
  match v with
  | .jobj fl =>
    match dictGet fl key with
    | some x => .ok x
    | none => .error Err.typeError
  | _ => .error Err.typeError

/-- Models v.get "title": Python returns None both for an absent key and for a
stored JSON null, so the two collapse to none. -/
def pyGetTitle (v : JValue) : Option JValue :=
  match v with
  | .jobj fl =>
    match dictGet fl "title" with
    | some .jnull => none
    | some x => some x
    | none => none
  | _ => none

/-- Truncation of a rational toward zero, the behaviour of Python's
int() applied to a float. -/
def ratTrunc (q : ℚ) : Int :=
  if 0 ≤ q.num then ((q.num.natAbs / q.den : Nat) : Int)
  else -((q.num.natAbs / q.den : Nat) : Int)

/-- Whitespace stripped by Python's int() and float() around a numeric
string. -/
def isPyWs (c : Char) : Bool := [' ', '\t', '\n', '\r', '\x0b', '\x0c'].contains c

/-- Drop leading whitespace from a character list. -/
def dropLeadingWs : List Char → List Char
  | [] => []
  | c :: cs => if isPyWs c then dropLeadingWs cs else c :: cs

/-- Strip whitespace from both ends of a character list. -/
def pyStrip (cs : List Char) : List Char :=
  dropLeadingWs (dropLeadingWs cs.reverse).reverse

/-- The tail of an int() numeral body after its leading digit: digits, with a
single underscore allowed only between two digits. -/
def isIntBodyRest : List Char → Bool
  | [] => true
  | ['_'] => false
  | '_' :: c :: cs => isDigitCh c && isIntBodyRest cs
  | c :: cs => isDigitCh c && isIntBodyRest cs

/-- A valid int() numeral body: a leading digit, then digits with single
underscores only between digits. -/
def isIntBody : List Char → Bool
  | [] => false
  | c :: cs => isDigitCh c && isIntBodyRest cs

/-- The value of an int() numeral body, when valid: the underscores carry no
value (int() reads "1_9" as 19). -/
def intBodyVal? (ds : List Char) : Option Nat :=
  if isIntBody ds then some (digitsToNat (ds.filter fun c => c != '_')) else none

/-- Models int() applied to a string: surrounding whitespace and an optional
sign are accepted, then an integer numeral is required, its digits optionally
grouped by single underscores ("1.9" is rejected, "1_9" reads as 19).  The
non-ASCII Unicode decimal digits int() also accepts appear in no property
proved here. -/
def pyIntOfString (s : String) : Option Int :=
  match pyStrip s.toList with
  | '+' :: ds => (intBodyVal? ds).map fun n => (n : Int)
  | '-' :: ds => (intBodyVal? ds).map fun n => -(n : Int)
  | ds => (intBodyVal? ds).map fun n => (n : Int)

/-- Models float() applied to a string: optional sign, digits with an optional
fraction and exponent; at least one digit is required overall. -/
def pyFloatOfString (s : String) : Option ℚ :=
  let cs := pyStrip s.toList
  let sgn : Bool × List Char :=
    match cs with
    | '+' :: r => (false, r)
    | '-' :: r => (true, r)
    | r => (false, r)
  let ipr := readDigits sgn.2
  let fpr : List Char × List Char :=
    match ipr.2 with
    | '.' :: r => readDigits r
    | r => ([], r)
  if ipr.1.isEmpty && fpr.1.isEmpty then none
  else
    match parseExpOpt fpr.2 with
    | some (ex, []) => some (jsonNumVal sgn.1 ipr.1 fpr.1 ex)
    | _ => none

/-- Models int(x) on a JSON value: a number truncates toward zero, a string
must be an integer numeral, a bool maps to 0 or 1; anything else is a
conversion failure. -/
def pyInt (v : JValue) : Except Err Int :=
  match v with
  | .jnum q => .ok (ratTrunc q)
  | .jstr s =>
    match pyIntOfString s with
    | some n => .ok n
    | none => .error Err.coercion
  | .jbool b => .ok (if b then 1 else 0)
  | _ => .error Err.coercion

/-- Models float(x) on a JSON value. -/
def pyFloat (v : JValue) : Except Err ℚ :=
  match v with
  | .jnum q => .ok q
  | .jstr s =>
    match pyFloatOfString s with
    | some q => .ok q
    | none => .error Err.coercion
  | .jbool b => .ok (if b then mkRat 1 1 else mkRat 0 1)
  | _ => .error Err.coercion

/-! ## The Point record and the loader -/

/-- Models the Point class (src/script2.py lines 11-17): id, latitude,
longitude and the optional title, which is stored untouched. -/
structure Point where
  id : Int
  latitude : ℚ
  longitude : ℚ
  title : Option JValue

/-- Models the containment check on one element (line 34):
all(key in point for key in ["id", "latitude", "longitude"]), evaluated left
to right with short-circuiting. -/
def hasAllRequired (v : JValue) : Except Err Bool :=
  match pyContains v "id" with
  | .error e => .error e
  | .ok b1 =>
    if b1 then
      match pyContains v "latitude" with
      | .error e => .error e
      | .ok b2 =>
        if b2 then pyContains v "longitude" else .ok false
    else .ok false

/-- Models the Point construction on one element (lines 36-41):
Point(int(point["id"]), float(point["latitude"]), float(point["longitude"]),
point.get("title")), with Python's left-to-right argument evaluation. -/
def buildPoint (v : JValue) : Except Err Point :=
  match pyIndex v "id" with
  | .error e => .error e
  | .ok idv =>
    match pyInt idv with
    | .error e => .error e
    | .ok i =>
      match pyIndex v "latitude" with
      | .error e => .error e
      | .ok lav =>
        match pyFloat lav with
        | .error e => .error e
        | .ok la =>
          match pyIndex v "longitude" with
          | .error e => .error e
          | .ok lov =>
            match pyFloat lov with
            | .error e => .error e
            | .ok lo => .ok { id := i, latitude := la, longitude := lo, title := pyGetTitle v }

/-- One iteration of the loop body in parse_points (lines 33-41): the key
check, then the Point construction. -/
def checkAndBuild (v : JValue) : Except Err Point :=
  match hasAllRequired v with
  | .error e => .error e
  | .ok true => buildPoint v
  | .ok false => .error Err.missingField

/-- The append loop of parse_points: self points was just reset, acc is what
has been appended so far.  On the first bad element the loop stops with the
raised error, leaving the already-appended prefix in place. -/
def parsePointsLoop : List JValue → List Point → List Point × Option Err
  | [], acc => (acc, none)
  | v :: rest, acc =>
    match checkAndBuild v with
    | .ok p => parsePointsLoop rest (acc ++ [p])
    | .error e => (acc, some e)

/-- Models the YandexMapGenerator object state (lines 21-26): configured zoom
and language plus the loaded point collection. -/
structure YandexMapGenerator where
  zoom : Int
  lang : String
  points : List Point

/-- A generator constructed with the default arguments zoom=5, lang="ru_RU". -/
def initGen : YandexMapGenerator := { zoom := 5, lang := "ru_RU", points := [] }

/-- Models YandexMapGenerator._parse_points (lines 28-42).  The state is
threaded explicitly: a non-list raises before the collection is touched; a
list first resets the collection and then appends element by element, so an
error part-way leaves the prefix behind. -/
def parse_points (g : YandexMapGenerator) (data : JValue) : YandexMapGenerator × Option Err :=
  match data with
  | .jarr xs =>
    let r := parsePointsLoop xs []
    ({ g with points := r.1 }, r.2)
  | _ => (g, some Err.notList)

/-- The local filesystem, as far as os.path.isfile and open can observe it: a
map from path to file contents. -/
abbrev FileSystem := List (String × String)

/-- Path lookup; isSome models os.path.isfile. -/
def fsLookup (fs : FileSystem) (path : String) : Option String :=
  (fs.find? fun e => e.1 == path).map fun e => e.2

/-- The shared tail of load_points (lines 50-55): parse a JSON text and feed
the value to parse_points; a syntactically invalid text raises
json.JSONDecodeError. -/
def parseStage (g : YandexMapGenerator) (text : String) : YandexMapGenerator × Option Err :=
  match jsonParse text with
  | some v => parse_points g v
  | none => (g, some Err.parseError)

/-- Models YandexMapGenerator.load_points (lines 44-59): if the input string
names an existing file its contents are parsed, otherwise the string itself
is.  The except clause only logs and re-raises, so it does not change the
result. -/
def load_points (fs : FileSystem) (g : YandexMapGenerator) (input : String) :
    YandexMapGenerator × Option Err :=
  match fsLookup fs input with
  | some contents => parseStage g contents
  | none => parseStage g input

/-- Models the stdin branch of main (lines 91-95): a fresh generator with
default settings, then load_points applied to the full stdin text. -/
def main_stdin (fs : FileSystem) (stdinText : String) : YandexMapGenerator × Option Err :=
  load_points fs initGen stdinText

/-! ## URL generation -/

/-- The terminating-decimal exponent of a denominator: the least k with
d dividing 10^k, when one exists below the search bound. -/
def decExp (d : Nat) : Option Nat := (List.range (d + 1)).find? fun k => d ∣ 10 ^ k

/-- Models str() of the Python float holding the exact value q, for the
plain-decimal range: the shortest decimal expansion, with a trailing ".0" for
integral values.  (Python switches to scientific form outside [1e-4, 1e16);
no property below exercises that range.)  A denominator that is not of the
form 2^a 5^b cannot arise from float(); those values get a fallback form. -/
def fmtFloat (q : ℚ) : String :=
  let sign := if q.num < 0 then "-" else ""
  let n := q.num.natAbs
  if q.den = 1 then sign ++ toString n ++ ".0"
  else
    match decExp q.den with
    | some k =>
      let digits := toString (n * 10 ^ k / q.den) |>.toList
      let digits := List.replicate (k + 1 - digits.length) '0' ++ digits
      sign ++ String.mk (digits.take (digits.length - k)) ++ "." ++
        String.mk (digits.drop (digits.length - k))
    | none => sign ++ toString n ++ "/" ++ toString q.den

/-- The UTF-8 encoding of a character, as byte values. -/
def utf8Bytes (c : Char) : List Nat :=
  let n := c.toNat
  if n < 128 then [n]
  else if n < 2048 then [192 + n / 64, 128 + n % 64]
  else if n < 65536 then [224 + n / 4096, 128 + (n / 64) % 64, 128 + n % 64]
  else [240 + n / 262144, 128 + (n / 4096) % 64, 128 + (n / 64) % 64, 128 + n % 64]

/-- The bytes urllib.parse.quote_plus leaves unescaped: ASCII letters, digits,
and the characters underscore, dot, hyphen and tilde. -/
def isUrlSafe (n : Nat) : Bool :=
  (48 ≤ n && n ≤ 57) || (65 ≤ n && n ≤ 90) || (97 ≤ n && n ≤ 122) ||
    n == 45 || n == 46 || n == 95 || n == 126

/-- Uppercase hexadecimal digit. -/
def hexDigit (n : Nat) : Char := if n < 10 then Char.ofNat (48 + n) else Char.ofNat (55 + n)

/-- Percent-encode one byte: safe bytes pass through, a space becomes a plus,
everything else becomes %XX. -/
def encodeByte (n : Nat) : List Char :=
  if isUrlSafe n then [Char.ofNat n]
  else if n == 32 then ['+']
  else ['%', hexDigit (n / 16), hexDigit (n % 16)]

/-- Models urllib.parse.quote_plus with its default safe set. -/
def quotePlus (s : String) : String :=
  String.mk (List.flatten (s.toList.map fun c => List.flatten ((utf8Bytes c).map encodeByte)))

/-- Models urllib.parse.urlencode on an insertion-ordered dict: key=value
pairs, quote_plus applied to both sides, joined with ampersands. -/
def urlencode (params : List (String × String)) : String :=
  String.intercalate "&" (params.map fun kv => quotePlus kv.1 ++ "=" ++ quotePlus kv.2)

/-- The marker token contributed by one point (line 65):
longitude, latitude, pmwtm id. -/
def markerToken (p : Point) : String :=
  fmtFloat p.longitude ++ "," ++ fmtFloat p.latitude ++ ",pmwtm" ++ toString p.id

/-- The map center (line 66): the first point's longitude,latitude. -/
def centerStr (g : YandexMapGenerator) : String :=
  match g.points with
  | [] => ""
  | p :: _ => fmtFloat p.longitude ++ "," ++ fmtFloat p.latitude

/-- The query parameters of generate_map_url (lines 67-72), in the dict's
insertion order, with values already converted to strings as urlencode's
str() does. -/
def mapParams (g : YandexMapGenerator) : List (String × String) :=
  [("ll", centerStr g), ("z", toString g.zoom), ("lang", g.lang),
   ("pt", String.intercalate "~" (g.points.map markerToken))]

/-- The fixed base endpoint (line 73). -/
def baseUrl : String := "https://maps.yandex.ru/"

/-- Lookup of one query parameter in the parameter list. -/
def lookupParam (k : String) (params : List (String × String)) : Option String :=
  (params.find? fun e => e.1 == k).map fun e => e.2

/-- Models YandexMapGenerator.generate_map_url (lines 61-76): a ValueError on
an empty collection, otherwise the encoded URL. -/
def generate_map_url (g : YandexMapGenerator) : Except Err String :=
  match g.points with
  | [] => .error Err.noPoints
  | _ :: _ => .ok (baseUrl ++ "?" ++ urlencode (mapParams g))

/-! ## Concrete instances used by the claims -/

/-- Concrete two-point instance of C1. -/
def w1Obj : JValue :=
  .jobj [("id", .jnum (mkRat 3 1)), ("latitude", .jnum (mkRat 3 2)), ("longitude", .jnum (mkRat 5 2))]

/-- Second concrete point object for the C1 witness. -/
def w2Obj : JValue :=
  .jobj [("id", .jnum (mkRat 4 1)), ("latitude", .jnum (mkRat 7 2)), ("longitude", .jnum (mkRat 9 2))]

/-- The point w1Obj builds. -/
def w1Pt : Point := { id := 3, latitude := mkRat 3 2, longitude := mkRat 5 2, title := none }

/-- The point w2Obj builds. -/
def w2Pt : Point := { id := 4, latitude := mkRat 7 2, longitude := mkRat 9 2, title := none }

/-- A generator that already holds one loaded point, to observe what a later
failed load does to previously loaded state. -/
def preGen : YandexMapGenerator :=
  { zoom := 5, lang := "ru_RU",
    points := [{ id := 9, latitude := mkRat 9 1, longitude := mkRat 9 1, title := none }] }

/-- A well-formed point object. -/
def goodObj : JValue :=
  .jobj [("id", .jnum (mkRat 1 1)), ("latitude", .jnum (mkRat 2 1)), ("longitude", .jnum (mkRat 3 1))]

/-- A point object with no longitude key. -/
def missingObj : JValue := .jobj [("id", .jnum (mkRat 4 1)), ("latitude", .jnum (mkRat 5 1))]

/-- A point object with the three required keys but an id that int() cannot
convert. -/
def badIdObj : JValue :=
  .jobj [("id", .jstr "abc"), ("latitude", .jnum (mkRat 5 1)), ("longitude", .jnum (mkRat 6 1))]

/-- A point object whose id is the numeric string "1.9". -/
def strFloatIdObj : JValue :=
  .jobj [("id", .jstr "1.9"), ("latitude", .jnum (mkRat 1 1)), ("longitude", .jnum (mkRat 2 1))]

/-- The point stored for a float id 1.9: the id truncates toward zero. -/
def truncIdPt : Point :=
  { id := ratTrunc (mkRat 19 10), latitude := mkRat 1 1, longitude := mkRat 2 1, title := none }

/-- The point stored for the underscore-grouped string id "1_9", which
Python's int() reads as 19. -/
def underscoreIdPt : Point :=
  { id := 19, latitude := mkRat 1 1, longitude := mkRat 2 1, title := none }

/-- A filesystem holding a file whose name is the exact stdin content of the
C3 counterexample. -/
def stdinFs : FileSystem :=
  [("pts.json", "[\x7b\"id\": 7, \"latitude\": 1.5, \"longitude\": 2.5\x7d]")]

/-- The input of the end-to-end example of C6. -/
def exampleInput : String :=
  "[\x7b\"id\":1,\"latitude\":55.75,\"longitude\":37.62,\"title\":\"A\"\x7d,\x7b\"id\":2,\"latitude\":59.93,\"longitude\":30.33\x7d]"

/-- The file body of the C7 example. -/
def pointFileBody : String := "[\x7b\"id\":1,\"latitude\":10.0,\"longitude\":20.0\x7d]"

/-- A filesystem holding the C7 example file. -/
def pointFs : FileSystem := [("points.json", pointFileBody)]

/-- The single point the C7 example loads. -/
def tenTwentyPt : Point :=
  { id := 1, latitude := mkRat 10 1, longitude := mkRat 20 1, title := none }

/-- The title-independent data of a point. -/
def pointData (p : Point) : Int × ℚ × ℚ := (p.id, p.latitude, p.longitude)

/-- A point identical to w1Pt except that it carries a title. -/
def titledPt : Point :=
  { id := 3, latitude := mkRat 3 2, longitude := mkRat 5 2, title := some (.jstr "A") }

/-! ## Loader lemmas -/



/-- If every element of the list builds a point, the append loop returns all
of them in order, after the accumulator, with no error. -/
theorem parsePointsLoop_ok (xs : List JValue) : ∀ (ps acc : List Point),
    xs.map checkAndBuild = ps.map Except.ok →
    parsePointsLoop xs acc = (acc ++ ps, none) := by
  induction xs with
  | nil =>
    intro ps acc h
    cases ps with
    | nil => simp [parsePointsLoop]
    | cons p pt => simp at h
  | cons v vt ih =>
    intro ps acc h
    cases ps with
    | nil => simp at h
    | cons p pt =>
      simp only [List.map_cons, List.cons.injEq] at h
      have hr := ih pt (acc ++ [p]) h.2
      simp [parsePointsLoop, h.1, hr]

/-- If a well-formed prefix is followed by an element whose construction
raises, the loop stops there: the prefix stays appended, the raised error is
reported, and the tail is never examined. -/
theorem parsePointsLoop_error (xs : List JValue) : ∀ (ys : List JValue) (v : JValue)
    (ps acc : List Point) (e : Err),
    xs.map checkAndBuild = ps.map Except.ok →
    checkAndBuild v = .error e →
    parsePointsLoop (xs ++ v :: ys) acc = (acc ++ ps, some e) := by
  induction xs with
  | nil =>
    intro ys v ps acc e h hv
    cases ps with
    | nil => simp [parsePointsLoop, hv]
    | cons p pt => simp at h
  | cons w wt ih =>
    intro ys v ps acc e h hv
    cases ps with
    | nil => simp at h
    | cons p pt =>
      simp only [List.map_cons, List.cons.injEq] at h
      have hr := ih ys v pt (acc ++ [p]) e h.2 hv
      simp [parsePointsLoop, h.1, hr]

/-! ## Claims -/

/-- Claim C1: for every list of well-formed points loaded via parse_points,
the URL's pt parameter has exactly one token per loaded point, in input
order, joined with tildes, each token being longitude,latitude,pmwtm id. -/
theorem pt_param_one_token_per_point (g : YandexMapGenerator) (xs : List JValue) (ps : List Point)
    (h : xs.map checkAndBuild = ps.map Except.ok) (hne : ps ≠ []) :
    parse_points g (.jarr xs) = ({ g with points := ps }, none) ∧
    ps.length = xs.length ∧
    generate_map_url { g with points := ps } =
      .ok (baseUrl ++ "?" ++ urlencode (mapParams { g with points := ps })) ∧
    lookupParam "pt" (mapParams { g with points := ps }) =
      some (String.intercalate "~" (ps.map fun p =>
        fmtFloat p.longitude ++ "," ++ fmtFloat p.latitude ++ ",pmwtm" ++ toString p.id)) := by
  refine ⟨?_, ?_, ?_, ?_⟩
  · have hr := parsePointsLoop_ok xs ps [] h
    simp [parse_points, hr]
  · have hlen := congrArg List.length h
    simpa using hlen.symm
  · cases ps with
    | nil => exact absurd rfl hne
    | cons p pt => rfl
  · cases ps with
    | nil => exact absurd rfl hne
    | cons p pt => rfl


/-- Witness for C1 at a concrete two-point input. -/
theorem pt_param_one_token_per_point_witness :
    parse_points initGen (.jarr [w1Obj, w2Obj]) = ({ initGen with points := [w1Pt, w2Pt] }, none) ∧
    ([w1Pt, w2Pt] : List Point).length = ([w1Obj, w2Obj] : List JValue).length ∧
    generate_map_url { initGen with points := [w1Pt, w2Pt] } =
      .ok (baseUrl ++ "?" ++ urlencode (mapParams { initGen with points := [w1Pt, w2Pt] })) ∧
    lookupParam "pt" (mapParams { initGen with points := [w1Pt, w2Pt] }) =
      some (String.intercalate "~" (([w1Pt, w2Pt] : List Point).map fun p =>
        fmtFloat p.longitude ++ "," ++ fmtFloat p.latitude ++ ",pmwtm" ++ toString p.id)) :=
  pt_param_one_token_per_point initGen [w1Obj, w2Obj] [w1Pt, w2Pt] (by rfl) (by simp)

/-- Claim C4: for every nonempty loaded collection the ll parameter is the
first point's longitude,latitude, longitude first. -/
theorem ll_param_is_first_point (g : YandexMapGenerator) (p : Point) (rest : List Point)
    (h : g.points = p :: rest) :
    lookupParam "ll" (mapParams g) = some (fmtFloat p.longitude ++ "," ++ fmtFloat p.latitude) ∧
    generate_map_url g = .ok (baseUrl ++ "?" ++ urlencode (mapParams g)) := by
  obtain ⟨z, l, pts⟩ := g
  have h' : pts = p :: rest := h
  subst h'
  exact ⟨rfl, rfl⟩

/-- Witness for C4 at a concrete one-point state. -/
theorem ll_param_is_first_point_witness :
    lookupParam "ll" (mapParams { initGen with points := [w1Pt] }) =
      some (fmtFloat w1Pt.longitude ++ "," ++ fmtFloat w1Pt.latitude) ∧
    generate_map_url { initGen with points := [w1Pt] } =
      .ok (baseUrl ++ "?" ++ urlencode (mapParams { initGen with points := [w1Pt] })) :=
  ll_param_is_first_point { initGen with points := [w1Pt] } w1Pt [] rfl

/-- Claim C5: with an empty loaded collection, generate_map_url raises the
no-points ValueError and returns no URL. -/
theorem empty_collection_url_error (g : YandexMapGenerator) (h : g.points = []) :
    generate_map_url g = .error Err.noPoints := by
  obtain ⟨z, l, pts⟩ := g
  have h' : pts = [] := h
  subst h'
  rfl

/-- Witness for C5 at the freshly constructed generator. -/
theorem empty_collection_url_error_witness : generate_map_url initGen = .error Err.noPoints :=
  empty_collection_url_error initGen rfl


/-- Counterexample to C2 as stated: loading [goodObj, missingObj] into a
generator that held one point raises the missing-field ValueError, yet
afterwards the collection is not empty: it holds exactly the point built from
goodObj (the claim demands that no points be retained). -/
theorem missing_key_retains_prefix_cex :
    (parse_points preGen (.jarr [goodObj, missingObj])).2 = some Err.missingField ∧
    (parse_points preGen (.jarr [goodObj, missingObj])).1.points.map Point.id = [1] :=
  ⟨rfl, rfl⟩

/-- Claim C2 as amended: a missing required key on any element fails the whole
load with the validation error, the previously loaded collection is discarded,
and the collection afterwards holds exactly the points built from the elements
before the first failing one (the tail is never examined). -/
theorem missing_key_fails_batch_amended (g : YandexMapGenerator) (xs ys : List JValue)
    (ps : List Point) (bad : JValue)
    (h : xs.map checkAndBuild = ps.map Except.ok)
    (hbad : hasAllRequired bad = .ok false) :
    parse_points g (.jarr (xs ++ bad :: ys)) = ({ g with points := ps }, some Err.missingField) := by
  have hcb : checkAndBuild bad = .error Err.missingField := by
    simp [checkAndBuild, hbad]
  have hr := parsePointsLoop_error xs ys bad ps [] Err.missingField h hcb
  simp [parse_points, hr]

/-- Witness for the amended C2 at the concrete counterexample input. -/
theorem missing_key_fails_batch_amended_witness :
    parse_points preGen (.jarr ([goodObj] ++ missingObj :: [])) =
      ({ preGen with
          points := [{ id := 1, latitude := mkRat 2 1, longitude := mkRat 3 1, title := none }] },
        some Err.missingField) :=
  missing_key_fails_batch_amended preGen [goodObj] []
    [{ id := 1, latitude := mkRat 2 1, longitude := mkRat 3 1, title := none }] missingObj
    (by rfl) (by rfl)


/-- Counterexample to C8 as stated: the element does have all three required
keys, the load fails with the coercion error, yet a collection is produced
for the call: the point built from goodObj is installed (and the previously
held point is gone). -/
theorem coercion_retains_prefix_cex :
    hasAllRequired badIdObj = .ok true ∧
    (parse_points preGen (.jarr [goodObj, badIdObj])).2 = some Err.coercion ∧
    (parse_points preGen (.jarr [goodObj, badIdObj])).1.points.map Point.id = [1] :=
  ⟨rfl, rfl, rfl⟩

/-- Claim C8 as amended: when the elements before the offender are well formed
and an element with all three required keys has a value the numeric coercions
reject, the whole load fails with the coercion error; the collection
afterwards holds exactly the prefix points, the old collection being
discarded. -/
theorem coercion_fails_batch_amended (g : YandexMapGenerator) (xs ys : List JValue)
    (ps : List Point) (bad : JValue)
    (h : xs.map checkAndBuild = ps.map Except.ok)
    (hkeys : hasAllRequired bad = .ok true)
    (hb : buildPoint bad = .error Err.coercion) :
    parse_points g (.jarr (xs ++ bad :: ys)) = ({ g with points := ps }, some Err.coercion) := by
  have hcb : checkAndBuild bad = .error Err.coercion := by
    simp [checkAndBuild, hkeys, hb]
  have hr := parsePointsLoop_error xs ys bad ps [] Err.coercion h hcb
  simp [parse_points, hr]

/-- Witness for the amended C8 at the concrete counterexample input. -/
theorem coercion_fails_batch_amended_witness :
    parse_points preGen (.jarr ([goodObj] ++ badIdObj :: [])) =
      ({ preGen with
          points := [{ id := 1, latitude := mkRat 2 1, longitude := mkRat 3 1, title := none }] },
        some Err.coercion) :=
  coercion_fails_batch_amended preGen [goodObj] []
    [{ id := 1, latitude := mkRat 2 1, longitude := mkRat 3 1, title := none }] badIdObj
    (by rfl) (by rfl) (by rfl)


/-- Counterexample to C10 as stated: "1.9" is a numeric string (float()
accepts it), the element is otherwise well formed, yet the load fails with
the coercion error instead of succeeding with int("1.9"), because Python's
int() rejects non-integer numerals. -/
theorem numeric_string_id_cex :
    pyFloatOfString "1.9" = some (mkRat 19 10) ∧
    hasAllRequired strFloatIdObj = .ok true ∧
    (parse_points initGen (.jarr [strFloatIdObj])).2 = some Err.coercion ∧
    (parse_points initGen (.jarr [strFloatIdObj])).1.points = [] :=
  ⟨rfl, rfl, rfl, rfl⟩

/-- Claim C10 as amended: an id need not be a JSON integer: a float id loads
and is truncated toward zero, and a string id loads exactly when int()
accepts it as an integer numeral, storing the parsed integer; both directions
are stated against the int() model: a string it reads as n loads and stores
n, and a string it rejects (such as "1.9") fails the whole load with the
coercion error. -/
theorem id_not_required_integer_amended (g : YandexMapGenerator) (q la lo : ℚ)
    (s sBad : String) (n : Int)
    (hs : pyIntOfString s = some n) (hbad : pyIntOfString sBad = none) :
    parse_points g
        (.jarr [.jobj [("id", .jnum q), ("latitude", .jnum la), ("longitude", .jnum lo)]]) =
      ({ g with points := [{ id := ratTrunc q, latitude := la, longitude := lo, title := none }] },
        none) ∧
    parse_points g
        (.jarr [.jobj [("id", .jstr s), ("latitude", .jnum la), ("longitude", .jnum lo)]]) =
      ({ g with points := [{ id := n, latitude := la, longitude := lo, title := none }] }, none) ∧
    parse_points g
        (.jarr [.jobj [("id", .jstr sBad), ("latitude", .jnum la), ("longitude", .jnum lo)]]) =
      ({ g with points := [] }, some Err.coercion) := by
  refine ⟨rfl, ?_, ?_⟩
  · have hcb : checkAndBuild
        (.jobj [("id", .jstr s), ("latitude", .jnum la), ("longitude", .jnum lo)]) =
        .ok { id := n, latitude := la, longitude := lo, title := none } := by
      simp [checkAndBuild, hasAllRequired, pyContains, dictGet, buildPoint, pyIndex, pyInt,
        pyFloat, pyGetTitle, hs]
    simp [parse_points, parsePointsLoop, hcb]
  · have hcb : checkAndBuild
        (.jobj [("id", .jstr sBad), ("latitude", .jnum la), ("longitude", .jnum lo)]) =
        .error Err.coercion := by
      simp [checkAndBuild, hasAllRequired, pyContains, dictGet, buildPoint, pyIndex, pyInt,
        hbad]
    simp [parse_points, parsePointsLoop, hcb]


/-- Witness for the amended C10: the float id 1.9 is stored as 1, the
underscore-grouped string id "1_9" is stored as 19, and the numeric string id
"1.9" fails the load. -/
theorem id_not_required_integer_amended_witness :
    pyIntOfString "1_9" = some 19 ∧ pyIntOfString "1.9" = none ∧
    parse_points initGen
        (.jarr [.jobj [("id", .jnum (mkRat 19 10)), ("latitude", .jnum (mkRat 1 1)),
          ("longitude", .jnum (mkRat 2 1))]]) =
      ({ initGen with points := [truncIdPt] }, none) ∧
    parse_points initGen
        (.jarr [.jobj [("id", .jstr "1_9"), ("latitude", .jnum (mkRat 1 1)),
          ("longitude", .jnum (mkRat 2 1))]]) =
      ({ initGen with points := [underscoreIdPt] }, none) ∧
    parse_points initGen
        (.jarr [.jobj [("id", .jstr "1.9"), ("latitude", .jnum (mkRat 1 1)),
          ("longitude", .jnum (mkRat 2 1))]]) =
      ({ initGen with points := [] }, some Err.coercion) :=
  have h := id_not_required_integer_amended initGen (mkRat 19 10) (mkRat 1 1) (mkRat 2 1)
    "1_9" "1.9" 19 (by rfl) (by rfl)
  ⟨rfl, rfl, h.1, h.2.1, h.2.2⟩


/-- Counterexample to C3 as stated: the stdin content "pts.json" is not valid
JSON text, so parsing the stream directly would fail; but main's stdin branch
hands the stream to load_points, whose file check fires, and the run succeeds
with the file's point.  The file-vs-string decision is therefore made in
stdin mode too. -/
theorem stdin_bypasses_file_check_cex :
    jsonParse "pts.json" = none ∧
    parseStage initGen "pts.json" = (initGen, some Err.parseError) ∧
    (main_stdin stdinFs "pts.json").2 = none ∧
    (main_stdin stdinFs "pts.json").1.points.map Point.id = [7] :=
  ⟨rfl, rfl, rfl, rfl⟩

/-- Claim C3 as amended: stdin mode reads the full stream and passes it
through the same file-vs-string resolution as a positional argument: when the
stream content names an existing file that file is parsed, and only otherwise
is the content itself parsed as JSON text. -/
theorem stdin_file_check_amended (fs : FileSystem) (s t : String) :
    (fsLookup fs s = some t → main_stdin fs s = parseStage initGen t) ∧
    (fsLookup fs s = none → main_stdin fs s = parseStage initGen s) := by
  constructor <;> intro h <;> simp [main_stdin, load_points, h]

/-- Witness for the amended C3: one stdin content that names an existing file
and one that does not. -/
theorem stdin_file_check_amended_witness :
    (fsLookup stdinFs "pts.json" =
        some "[\x7b\"id\": 7, \"latitude\": 1.5, \"longitude\": 2.5\x7d]" ∧
      main_stdin stdinFs "pts.json" =
        parseStage initGen "[\x7b\"id\": 7, \"latitude\": 1.5, \"longitude\": 2.5\x7d]") ∧
    (fsLookup [] "[]" = none ∧ main_stdin [] "[]" = parseStage initGen "[]") :=
  ⟨⟨rfl, (stdin_file_check_amended stdinFs "pts.json"
      "[\x7b\"id\": 7, \"latitude\": 1.5, \"longitude\": 2.5\x7d]").1 rfl⟩,
    ⟨rfl, (stdin_file_check_amended [] "[]" "").2 rfl⟩⟩


/-- Claim C6: the end-to-end example: loading the two-point input with the
default zoom 5 and language ru_RU yields ll 37.62,55.75, z 5, lang ru_RU and
pt 37.62,55.75,pmwtm1~30.33,59.93,pmwtm2 before percent-encoding, and the
final URL percent-encodes exactly those values. -/
theorem end_to_end_example :
    (load_points [] initGen exampleInput).2 = none ∧
    mapParams (load_points [] initGen exampleInput).1 =
      [("ll", "37.62,55.75"), ("z", "5"), ("lang", "ru_RU"),
        ("pt", "37.62,55.75,pmwtm1~30.33,59.93,pmwtm2")] ∧
    generate_map_url (load_points [] initGen exampleInput).1 =
      .ok "https://maps.yandex.ru/?ll=37.62%2C55.75&z=5&lang=ru_RU&pt=37.62%2C55.75%2Cpmwtm1~30.33%2C59.93%2Cpmwtm2" :=
  ⟨rfl, rfl, rfl⟩


/-- Claim C7: load_points resolves its argument as a file exactly when the
string names an existing file, parsing the file contents then and the string
itself otherwise; loading the example by file path and loading the same JSON
literal with no such file both yield the one point with id 1. -/
theorem file_vs_string_detection :
    (∀ (fs : FileSystem) (g : YandexMapGenerator) (s : String),
      load_points fs g s =
        match fsLookup fs s with
        | some contents => parseStage g contents
        | none => parseStage g s) ∧
    load_points pointFs initGen "points.json" = ({ initGen with points := [tenTwentyPt] }, none) ∧
    load_points [] initGen pointFileBody = ({ initGen with points := [tenTwentyPt] }, none) :=
  ⟨fun _ _ _ => rfl, rfl, rfl⟩


/-- Claim C9: the title never influences the generated URL: two states with
the same zoom and language whose point lists agree on id, latitude and
longitude generate identical URLs; and the title of a parsed element is
stored on the Point record. -/
theorem title_never_influences_url :
    (∀ g1 g2 : YandexMapGenerator, g1.zoom = g2.zoom → g1.lang = g2.lang →
      g1.points.map pointData = g2.points.map pointData →
      generate_map_url g1 = generate_map_url g2) ∧
    (∀ (fl : List (String × JValue)) (p : Point),
      checkAndBuild (.jobj fl) = .ok p → p.title = pyGetTitle (.jobj fl)) := by
  constructor
  · intro g1 g2 hz hl hp
    have hmap : ∀ ps : List Point, ps.map markerToken =
        (ps.map pointData).map fun d =>
          fmtFloat d.2.2 ++ "," ++ fmtFloat d.2.1 ++ ",pmwtm" ++ toString d.1 := by
      intro ps
      rw [List.map_map]
      rfl
    have hmark : g1.points.map markerToken = g2.points.map markerToken := by
      rw [hmap, hmap, hp]
    have hcen : centerStr g1 = centerStr g2 := by
      unfold centerStr
      cases hps1 : g1.points with
      | nil =>
        cases hps2 : g2.points with
        | nil => rfl
        | cons q qs =>
          rw [hps1, hps2] at hp
          simp at hp
      | cons p ps =>
        cases hps2 : g2.points with
        | nil =>
          rw [hps1, hps2] at hp
          simp at hp
        | cons q qs =>
          rw [hps1, hps2] at hp
          simp only [List.map_cons, List.cons.injEq] at hp
          have hlo : p.longitude = q.longitude := congrArg (fun d => d.2.2) hp.1
          have hla : p.latitude = q.latitude := congrArg (fun d => d.2.1) hp.1
          show fmtFloat p.longitude ++ "," ++ fmtFloat p.latitude =
            fmtFloat q.longitude ++ "," ++ fmtFloat q.latitude
          rw [hlo, hla]
    have hparams : mapParams g1 = mapParams g2 := by
      simp [mapParams, hcen, hz, hl, hmark]
    unfold generate_map_url
    cases hps1 : g1.points with
    | nil =>
      cases hps2 : g2.points with
      | nil => rfl
      | cons q qs =>
        rw [hps1, hps2] at hp
        simp at hp
    | cons p ps =>
      cases hps2 : g2.points with
      | nil =>
        rw [hps1, hps2] at hp
        simp at hp
      | cons q qs => rw [hparams]
  · intro fl p h
    unfold checkAndBuild buildPoint at h
    repeat' split at h
    all_goals first
      | exact Except.noConfusion h
      | (cases h; rfl)


/-- Witness for C9: two concrete one-point states differing only in the title
generate the same URL, and a concrete parsed element's title is stored. -/
theorem title_never_influences_url_witness :
    generate_map_url { initGen with points := [w1Pt] } =
      generate_map_url { initGen with points := [titledPt] } ∧
    titledPt.title = pyGetTitle (.jobj [("id", .jnum (mkRat 3 1)),
      ("latitude", .jnum (mkRat 3 2)), ("longitude", .jnum (mkRat 5 2)), ("title", .jstr "A")]) :=
  ⟨title_never_influences_url.1 { initGen with points := [w1Pt] }
      { initGen with points := [titledPt] } rfl rfl rfl,
    title_never_influences_url.2 [("id", .jnum (mkRat 3 1)), ("latitude", .jnum (mkRat 3 2)),
      ("longitude", .jnum (mkRat 5 2)), ("title", .jstr "A")] titledPt (by rfl)⟩

end Script2

